import Mathlib

/-!
Shallow embedding of the Radio Calico rating subsystem.

The Rating Store lives in `db.js` (SQLite via better-sqlite3): tables
`song_ratings` and `user_ratings`, and the functions `getSongRatings`,
`addOrUpdateRating`, `getUserRating`.  The Rating API is the
`POST /api/ratings` handler in `server.js`.

Tables are modelled as lists of rows in insertion (rowid) order; a SQL
`stmt.get` is `List.find?` (first matching row); an `INSERT` appends at the
end and enforces the table's UNIQUE constraint; the sqlite `UPDATE ... SET
f = f + 1 WHERE song_key = ?` maps the increment over every matching row.
Counts are `Int` (SQLite INTEGER is signed; non-negativity is an invariant,
not a typing assumption).  Timestamps and autoincrement ids carry no
behaviour relevant to the claims and are omitted.

better-sqlite3's `db.transaction(fn)` runs `fn` and rolls the database back
if `fn` throws, re-raising the exception; we model a storage failure at any
of the statements inside the transaction (and at the duplicate-vote check
before it) with an explicit `FailureOracle`, and the transaction as
all-or-nothing: the new state is committed only when every statement
succeeds.
-/

/-- A row of the `song_ratings` table (timestamps and id omitted). -/
structure SongRating where
  song_key : String
  artist : String
  title : String
  thumbs_up : Int
  thumbs_down : Int
deriving Repr, DecidableEq

/-- A row of the `user_ratings` table (timestamp and id omitted). -/
structure UserVote where
  song_key : String
  user_id : String
  rating_type : String
deriving Repr, DecidableEq

/-- The persisted state owned by the Rating Store: both tables, rows in
rowid (insertion) order.  The unrelated `items` table is out of scope. -/
structure DBState where
  song_ratings : List SongRating
  user_ratings : List UserVote
deriving Repr, DecidableEq

/-- The freshly initialised database: both tables empty. -/
def DBState.empty : DBState := ⟨[], []⟩

/-- `SELECT * FROM song_ratings WHERE song_key = ?` followed by `.get`:
the first row whose `song_key` matches, if any. -/
def selectSongRating (s : DBState) (songKey : String) : Option SongRating :=
  s.song_ratings.find? (fun r => r.song_key == songKey)

/-- `SELECT * FROM user_ratings WHERE song_key = ? AND user_id = ?`
followed by `.get`: the first matching row, if any. -/
def selectUserRating (s : DBState) (songKey userId : String) : Option UserVote :=
  s.user_ratings.find? (fun v => v.song_key == songKey && v.user_id == userId)

/-- The observable counts of an aggregate: the `thumbs_up` / `thumbs_down`
fields of the object `getSongRatings` returns. -/
structure RatingCounts where
  thumbs_up : Int
  thumbs_down : Int
deriving Repr, DecidableEq

/-- `getSongRatings` from db.js: `stmt.get(songKey) || { thumbs_up: 0,
thumbs_down: 0 }`, projected to the two count fields. -/
def getSongRatings (s : DBState) (songKey : String) : RatingCounts :=
  match selectSongRating s songKey with
  | some r => ⟨r.thumbs_up, r.thumbs_down⟩
  | none => ⟨0, 0⟩

/-- `INSERT INTO song_ratings ...`: appends the row, or raises the
`song_key` UNIQUE constraint error. -/
def insertSongRating (s : DBState) (row : SongRating) : Except String DBState :=
  match selectSongRating s row.song_key with
  | some _ => .error "UNIQUE constraint failed: song_ratings.song_key"
  | none => .ok { s with song_ratings := s.song_ratings ++ [row] }

/-- `INSERT INTO user_ratings ...`: appends the row, or raises the
`(song_key, user_id)` UNIQUE constraint error. -/
def insertUserVote (s : DBState) (v : UserVote) : Except String DBState :=
  match selectUserRating s v.song_key v.user_id with
  | some _ => .error "UNIQUE constraint failed: user_ratings.song_key, user_ratings.user_id"
  | none => .ok { s with user_ratings := s.user_ratings ++ [v] }

/-- The effect of db.js line 102 on one row: `ratingType === 'up' ?
'thumbs_up' : 'thumbs_down'` picks the column that gets `+ 1`. -/
def applyIncrement (ratingType : String) (r : SongRating) : SongRating :=
  if ratingType == "up" then { r with thumbs_up := r.thumbs_up + 1 }
  else { r with thumbs_down := r.thumbs_down + 1 }

/-- `UPDATE song_ratings SET field = field + 1 WHERE song_key = ?`:
increments the chosen column of every row whose key matches. -/
def updateSongRating (s : DBState) (songKey ratingType : String) : DBState :=
  { s with song_ratings :=
      s.song_ratings.map (fun r => if r.song_key == songKey then applyIncrement ratingType r else r) }

/-- Which of the storage statements executed by `addOrUpdateRating` throw,
and with what message: the duplicate-vote check (line 80), the aggregate
select (line 90), the aggregate insert (line 93), the count update
(line 103) and the vote insert (line 111).  `none` everywhere is the
failure-free run. -/
structure FailureOracle where
  failCheck : Option String
  failSelectAgg : Option String
  failInsertAgg : Option String
  failUpdateAgg : Option String
  failInsertVote : Option String
deriving Repr, DecidableEq

/-- The failure-free oracle: no storage statement throws. -/
def noFail : FailureOracle := ⟨none, none, none, none, none⟩

/-- Runs one storage statement under the oracle: either the injected
exception, or the statement itself. -/
def step (fail : Option String) (act : Except String DBState) : Except String DBState :=
  match fail with
  | some msg => .error msg
  | none => act

/-- The body of the `db.transaction` in `addOrUpdateRating` (db.js lines
88–116): select the aggregate row, insert it with zero counts if absent,
increment the chosen count, insert the user's vote. -/
def txBody (f : FailureOracle) (s : DBState) (songKey artist title ratingType userId : String) :
    Except String DBState :=
  match step f.failSelectAgg (.ok s) with
  | .error msg => .error msg
  | .ok s1 =>
    match (match selectSongRating s1 songKey with
      | some _ => Except.ok s1
      | none => step f.failInsertAgg (insertSongRating s1 ⟨songKey, artist, title, 0, 0⟩)) with
    | .error msg => .error msg
    | .ok s2 =>
      match step f.failUpdateAgg (.ok (updateSongRating s2 songKey ratingType)) with
      | .error msg => .error msg
      | .ok s3 => step f.failInsertVote (insertUserVote s3 ⟨songKey, userId, ratingType⟩)

/-- What `addOrUpdateRating` communicates to its caller: the duplicate-vote
error object `{ error: 'User has already rated this song' }`, the updated
aggregate counts, or a propagated storage exception. -/
inductive AddRatingResult where
  | errorDup : AddRatingResult
  | ok : RatingCounts → AddRatingResult
  | thrown : String → AddRatingResult
deriving Repr, DecidableEq

/-- True exactly on the success outcome. -/
def AddRatingResult.isOk : AddRatingResult → Bool
  | .ok _ => true
  | _ => false

/-- `addOrUpdateRating` from db.js under a failure oracle: the
duplicate-vote check outside the transaction, then the transaction
(committed only if every statement succeeds, rolled back otherwise), then
`getSongRatings` on the committed state.  Returns the result together with
the state after the call. -/
def addOrUpdateRatingF (f : FailureOracle) (s : DBState)
    (songKey artist title ratingType userId : String) : AddRatingResult × DBState :=
  match f.failCheck with
  | some msg => (.thrown msg, s)
  | none =>
    match selectUserRating s songKey userId with
    | some _ => (.errorDup, s)
    | none =>
      match txBody f s songKey artist title ratingType userId with
      | .ok s2 => (.ok (getSongRatings s2 songKey), s2)
      | .error msg => (.thrown msg, s)

/-- `addOrUpdateRating` on a run where no storage statement fails. -/
def addOrUpdateRating (s : DBState) (songKey artist title ratingType userId : String) :
    AddRatingResult × DBState :=
  addOrUpdateRatingF noFail s songKey artist title ratingType userId

/-- `getUserRating` from db.js: `result ? result.rating_type : null`. -/
def getUserRating (s : DBState) (songKey userId : String) : Option String :=
  (selectUserRating s songKey userId).map (fun v => v.rating_type)

/-- The JSON body of a `POST /api/ratings` request: each field either
absent or a string. -/
structure VoteRequest where
  songKey : Option String
  artist : Option String
  title : Option String
  ratingType : Option String
  userId : Option String
deriving Repr, DecidableEq

/-- JS truthiness of `!field` for an optional string field: true when the
field is absent or the empty string. -/
def isMissing : Option String → Bool
  | none => true
  | some str => str == ""

/-- `!songKey || !artist || !title || !ratingType || !userId` from
server.js line 55. -/
def missingAny (req : VoteRequest) : Bool :=
  isMissing req.songKey || isMissing req.artist || isMissing req.title ||
    isMissing req.ratingType || isMissing req.userId

/-- The response of the `POST /api/ratings` handler: HTTP status, the
`error` field of the JSON body if any, the aggregate counts on success,
and whether the handler reached the Rating Store call (db line 63). -/
structure PostRatingsOutcome where
  status : Nat
  errorMsg : Option String
  counts : Option RatingCounts
  storeCalled : Bool
deriving Repr, DecidableEq

/-- The `POST /api/ratings` handler (server.js lines 51–73): validate
presence of the five fields, validate `ratingType`, delegate to
`addOrUpdateRating`, map its outcomes to 400 / 200 / 500. -/
def postApiRatings (f : FailureOracle) (s : DBState) (req : VoteRequest) :
    PostRatingsOutcome × DBState :=
  if missingAny req then
    (⟨400, some "Missing required fields", none, false⟩, s)
  else
    let songKey := req.songKey.getD ""
    let artist := req.artist.getD ""
    let title := req.title.getD ""
    let ratingType := req.ratingType.getD ""
    let userId := req.userId.getD ""
    if ratingType != "up" && ratingType != "down" then
      (⟨400, some "Invalid rating type", none, false⟩, s)
    else
      match addOrUpdateRatingF f s songKey artist title ratingType userId with
      | (.errorDup, s2) => (⟨400, some "User has already rated this song", none, true⟩, s2)
      | (.ok c, s2) => (⟨200, none, some c, true⟩, s2)
      | (.thrown msg, s2) => (⟨500, some msg, none, true⟩, s2)

/-- The counts-level effect of one vote: which column `addOrUpdateRating`
increments for a given `ratingType`. -/
def incCounts (ratingType : String) (c : RatingCounts) : RatingCounts :=
  if ratingType == "up" then ⟨c.thumbs_up + 1, c.thumbs_down⟩
  else ⟨c.thumbs_up, c.thumbs_down + 1⟩

/-- Every aggregate row in the store has non-negative counts. -/
def countsNonneg (s : DBState) : Prop :=
  ∀ r ∈ s.song_ratings, 0 ≤ r.thumbs_up ∧ 0 ≤ r.thumbs_down

/-- States reachable from the fresh database through Rating Store calls
(reads do not change state; `addOrUpdateRating` may run under any failure
oracle). -/
inductive Reachable : DBState → Prop where
  | init : Reachable DBState.empty
  | vote (f : FailureOracle) (s : DBState) (k a t rt u : String) :
      Reachable s → Reachable (addOrUpdateRatingF f s k a t rt u).2

/-- The committed state of a successful `addOrUpdateRating` call: the
aggregate row upserted, the chosen count incremented, the vote row
appended.  Proven below to be exactly what `txBody` commits on a
failure-free fresh vote. -/
def postState (s : DBState) (k a t rt u : String) : DBState :=
  let s2 := match selectSongRating s k with
    | some _ => s
    | none => { s with song_ratings := s.song_ratings ++ [⟨k, a, t, 0, 0⟩] }
  let s3 := updateSongRating s2 k rt
  { s3 with user_ratings := s3.user_ratings ++ [⟨k, u, rt⟩] }

/-- A sequence of failure-free `addOrUpdateRating` calls, one `up` vote per
user in the list, on the same song: returns whether every call reported
success, together with the final state. -/
def castVotesUp (k a t : String) : List String → DBState → Bool × DBState
  | [], s => (true, s)
  | u :: rest, s =>
    let p := addOrUpdateRating s k a t "up" u
    let q := castVotesUp k a t rest p.2
    (p.1.isOk && q.1, q.2)

/-! ### Helper lemmas about the storage primitives -/

/-- Incrementing a count never changes a row's key. -/
theorem applyIncrement_song_key (rt : String) (r : SongRating) :
    (applyIncrement rt r).song_key = r.song_key := by
  unfold applyIncrement; split <;> rfl

/-- The count update rewrites each matching row in place: looking any key
up afterwards finds the same row, incremented when it matches the updated
key. -/
theorem selectSongRating_update (s : DBState) (k rt key : String) :
    selectSongRating (updateSongRating s k rt) key =
      (selectSongRating s key).map
        (fun r => if r.song_key == k then applyIncrement rt r else r) := by
  unfold selectSongRating updateSongRating
  rw [List.find?_map]
  have hp : ((fun r : SongRating => r.song_key == key) ∘
      fun r => if r.song_key == k then applyIncrement rt r else r) =
      fun r : SongRating => r.song_key == key := by
    funext r
    by_cases h : r.song_key == k <;>
      simp [Function.comp, h, applyIncrement_song_key]
  rw [hp]

/-- Neither the upsert nor the count update touches `user_ratings`, so a
fresh `(k, u)` stays fresh up to the vote insert. -/
theorem selectUserRating_postStage (s : DBState) (l : List SongRating) (k u : String) :
    selectUserRating { s with song_ratings := l } k u = selectUserRating s k u := rfl

/-- On a fresh `(k, u)` the failure-free transaction body commits exactly
`postState`. -/
theorem txBody_noFail_eq (s : DBState) (k a t rt u : String)
    (h : selectUserRating s k u = none) :
    txBody noFail s k a t rt u = .ok (postState s k a t rt u) := by
  unfold txBody postState noFail step
  cases hrow : selectSongRating s k with
  | some r =>
      simp only [hrow]
      unfold insertUserVote
      rw [show selectUserRating (updateSongRating s k rt) k u = selectUserRating s k u from rfl, h]
  | none =>
      simp only [hrow]
      unfold insertSongRating
      simp only [hrow]
      unfold insertUserVote
      rw [show selectUserRating
        (updateSongRating { s with song_ratings := s.song_ratings ++ [⟨k, a, t, 0, 0⟩] } k rt) k u =
        selectUserRating s k u from rfl, h]

/-- A fresh failure-free vote: `addOrUpdateRating` commits `postState` and
returns `ok` with the counts read back from the committed state. -/
theorem addOrUpdateRating_fresh (s : DBState) (k a t rt u : String)
    (h : selectUserRating s k u = none) :
    addOrUpdateRating s k a t rt u =
      (.ok (getSongRatings (postState s k a t rt u) k), postState s k a t rt u) := by
  unfold addOrUpdateRating addOrUpdateRatingF
  rw [show noFail.failCheck = none from rfl, h, txBody_noFail_eq s k a t rt u h]

/-- `postState` appends exactly the one new vote row. -/
theorem postState_user_ratings (s : DBState) (k a t rt u : String) :
    (postState s k a t rt u).user_ratings = s.user_ratings ++ [⟨k, u, rt⟩] := by
  unfold postState
  cases hrow : selectSongRating s k <;> rfl

/-- `postState` leaves an aggregate row for `k` in place: the pre-existing
row, or the freshly inserted zero row, incremented. -/
theorem selectSongRating_postState_self (s : DBState) (k a t rt u : String) :
    selectSongRating (postState s k a t rt u) k =
      some (applyIncrement rt ((selectSongRating s k).getD ⟨k, a, t, 0, 0⟩)) := by
  unfold postState
  cases hrow : selectSongRating s k with
  | some r =>
      simp only [hrow]
      rw [show selectSongRating
          { updateSongRating s k rt with
            user_ratings := (updateSongRating s k rt).user_ratings ++ [⟨k, u, rt⟩] } k =
          selectSongRating (updateSongRating s k rt) k from rfl]
      rw [selectSongRating_update, hrow]
      have hrow2 := hrow
      unfold selectSongRating at hrow2
      have hk := List.find?_some hrow2
      have hk2 : r.song_key = k := by simpa using hk
      simp [hk2]
  | none =>
      simp only [hrow]
      set s2 : DBState := { s with song_ratings := s.song_ratings ++ [⟨k, a, t, 0, 0⟩] } with hs2
      rw [show selectSongRating
          { updateSongRating s2 k rt with
            user_ratings := (updateSongRating s2 k rt).user_ratings ++ [⟨k, u, rt⟩] } k =
          selectSongRating (updateSongRating s2 k rt) k from rfl]
      rw [selectSongRating_update]
      have h2 : selectSongRating s2 k = some ⟨k, a, t, 0, 0⟩ := by
        unfold selectSongRating at hrow ⊢
        rw [hs2]
        simp only [List.find?_append, hrow]
        simp
      rw [h2]
      simp

/-- The counts a fresh vote commits for its song: the chosen column goes up
by one, the other is untouched. -/
theorem getSongRatings_postState_self (s : DBState) (k a t rt u : String) :
    getSongRatings (postState s k a t rt u) k = incCounts rt (getSongRatings s k) := by
  unfold getSongRatings
  rw [selectSongRating_postState_self]
  cases hrow : selectSongRating s k with
  | some r =>
      by_cases hrt : rt == "up" <;> simp [applyIncrement, incCounts, hrt]
  | none =>
      by_cases hrt : rt == "up" <;> simp [applyIncrement, incCounts, hrt]

/-- Changing only `user_ratings` does not affect aggregate lookups. -/
theorem selectSongRating_set_users (s : DBState) (l : List UserVote) (key : String) :
    selectSongRating { s with user_ratings := l } key = selectSongRating s key := rfl

/-- `selectUserRating` unfolded to its `find?` form. -/
theorem selectUserRating_eq_find (s : DBState) (k u : String) :
    selectUserRating s k u =
      s.user_ratings.find? (fun v => v.song_key == k && v.user_id == u) := rfl

/-- After a fresh vote the inserted `(k, u)` row is found, carrying the raw
`ratingType`. -/
theorem selectUserRating_postState_self (s : DBState) (k a t rt u : String)
    (h : selectUserRating s k u = none) :
    selectUserRating (postState s k a t rt u) k u = some ⟨k, u, rt⟩ := by
  rw [selectUserRating_eq_find] at h ⊢
  rw [postState_user_ratings, List.find?_append, h]
  simp

/-- A vote by `u` does not create or change the vote row of any other user
on that song. -/
theorem selectUserRating_postState_ne (s : DBState) (k a t rt u u2 : String)
    (hne : u2 ≠ u) :
    selectUserRating (postState s k a t rt u) k u2 = selectUserRating s k u2 := by
  rw [selectUserRating_eq_find, selectUserRating_eq_find, postState_user_ratings,
    List.find?_append]
  have hv : List.find? (fun v : UserVote => v.song_key == k && v.user_id == u2)
      [⟨k, u, rt⟩] = none := by
    simp
    exact fun h => hne h.symm
  rw [hv, Option.or_none]

/-- The per-row rewrite of the count update fixes every row of a different
song. -/
theorem selectSongRating_map_fix (s : DBState) (k rt key : String) (hne : key ≠ k) :
    (selectSongRating s key).map
        (fun r => if r.song_key == k then applyIncrement rt r else r) =
      selectSongRating s key := by
  cases hfind : selectSongRating s key with
  | none => rfl
  | some r =>
      have hfind2 := hfind
      unfold selectSongRating at hfind2
      have hk := List.find?_some hfind2
      have hk2 : r.song_key = key := by simpa using hk
      simp [hk2, hne]

/-- A vote on song `k` leaves every other song's aggregate row untouched. -/
theorem selectSongRating_postState_other (s : DBState) (k a t rt u key : String)
    (hne : key ≠ k) :
    selectSongRating (postState s k a t rt u) key = selectSongRating s key := by
  unfold postState
  cases hrow : selectSongRating s k with
  | some r =>
      simp only [hrow]
      rw [selectSongRating_set_users, selectSongRating_update,
        selectSongRating_map_fix s k rt key hne]
  | none =>
      simp only [hrow]
      rw [selectSongRating_set_users, selectSongRating_update]
      have h2 : selectSongRating
          { s with song_ratings := s.song_ratings ++ [⟨k, a, t, 0, 0⟩] } key =
          selectSongRating s key := by
        unfold selectSongRating
        simp only [List.find?_append]
        have hone : List.find? (fun r : SongRating => r.song_key == key)
            [⟨k, a, t, 0, 0⟩] = none := by
          simp [Ne.symm hne]
        rw [hone, Option.or_none]
      rw [h2, selectSongRating_map_fix s k rt key hne]

/-- A vote on song `k` leaves every other song's counts untouched. -/
theorem getSongRatings_postState_other (s : DBState) (k a t rt u key : String)
    (hne : key ≠ k) :
    getSongRatings (postState s k a t rt u) key = getSongRatings s key := by
  unfold getSongRatings
  rw [selectSongRating_postState_other s k a t rt u key hne]

/-- Outcome trichotomy of `addOrUpdateRating` under any failure oracle: a
storage failure rolled back (state unchanged), a rejected duplicate (state
unchanged), or a fresh vote committed in full. -/
theorem addOrUpdateRatingF_trichotomy (f : FailureOracle) (s : DBState) (k a t rt u : String) :
    (∃ msg, addOrUpdateRatingF f s k a t rt u = (.thrown msg, s)) ∨
    addOrUpdateRatingF f s k a t rt u = (.errorDup, s) ∨
    (selectUserRating s k u = none ∧
      addOrUpdateRatingF f s k a t rt u =
        (.ok (getSongRatings (postState s k a t rt u) k), postState s k a t rt u)) := by
  obtain ⟨fc, fsa, fia, fua, fiv⟩ := f
  cases fc with
  | some msg => exact .inl ⟨msg, rfl⟩
  | none =>
    cases h : selectUserRating s k u with
    | some v =>
        refine .inr (.inl ?_)
        unfold addOrUpdateRatingF
        rw [h]
    | none =>
      cases fsa with
      | some msg =>
          refine .inl ⟨msg, ?_⟩
          simp only [addOrUpdateRatingF, txBody, step, h]
      | none =>
        cases hrow : selectSongRating s k with
        | some r =>
          cases fua with
          | some msg =>
              refine .inl ⟨msg, ?_⟩
              simp only [addOrUpdateRatingF, txBody, step, h, hrow]
          | none =>
            cases fiv with
            | some msg =>
                refine .inl ⟨msg, ?_⟩
                simp only [addOrUpdateRatingF, txBody, step, h, hrow]
            | none =>
                refine .inr (.inr ⟨rfl, ?_⟩)
                have htx : txBody ⟨none, none, fia, none, none⟩ s k a t rt u =
                    .ok (postState s k a t rt u) := by
                  unfold txBody postState step
                  simp only [hrow]
                  unfold insertUserVote
                  rw [show selectUserRating (updateSongRating s k rt) k u =
                    selectUserRating s k u from rfl, h]
                unfold addOrUpdateRatingF
                rw [h, htx]
        | none =>
          cases fia with
          | some msg =>
              refine .inl ⟨msg, ?_⟩
              simp only [addOrUpdateRatingF, txBody, step, h, hrow]
          | none =>
            cases fua with
            | some msg =>
                refine .inl ⟨msg, ?_⟩
                simp only [addOrUpdateRatingF, txBody, step, insertSongRating, h, hrow]
            | none =>
              cases fiv with
              | some msg =>
                  refine .inl ⟨msg, ?_⟩
                  simp only [addOrUpdateRatingF, txBody, step, insertSongRating, h, hrow]
              | none =>
                  refine .inr (.inr ⟨rfl, ?_⟩)
                  have htx := txBody_noFail_eq s k a t rt u h
                  rw [show noFail = (⟨none, none, none, none, none⟩ : FailureOracle) from rfl] at htx
                  unfold addOrUpdateRatingF
                  rw [h, htx]

/-- The rows `postState` holds for songs: the old table (with the zero row
appended when `k` was absent), rewritten by the count update. -/
theorem postState_song_ratings (s : DBState) (k a t rt u : String) :
    (postState s k a t rt u).song_ratings =
      ((match selectSongRating s k with
        | some _ => s.song_ratings
        | none => s.song_ratings ++ [(⟨k, a, t, 0, 0⟩ : SongRating)] : List SongRating)).map
        (fun r : SongRating => if r.song_key == k then applyIncrement rt r else r) := by
  unfold postState updateSongRating
  cases selectSongRating s k <;> rfl

/-- A committed vote keeps every aggregate row's counts non-negative. -/
theorem countsNonneg_postState (s : DBState) (k a t rt u : String) (h : countsNonneg s) :
    countsNonneg (postState s k a t rt u) := by
  intro r hr
  rw [postState_song_ratings] at hr
  rcases List.mem_map.mp hr with ⟨r0, hr0, rfl⟩
  have h0 : 0 ≤ r0.thumbs_up ∧ 0 ≤ r0.thumbs_down := by
    cases hrow : selectSongRating s k with
    | some r1 =>
        rw [hrow] at hr0
        exact h r0 hr0
    | none =>
        rw [hrow] at hr0
        rcases List.mem_append.mp hr0 with h1 | h1
        · exact h r0 h1
        · have : r0 = ⟨k, a, t, 0, 0⟩ := by simpa using h1
          subst this
          exact ⟨le_refl 0, le_refl 0⟩
  by_cases hc : (r0.song_key == k) = true <;>
    by_cases hrt : (rt == "up") = true <;>
      simp [hc, hrt, applyIncrement] <;> omega

/-- Counts read through `getSongRatings` are non-negative whenever the
stored rows are. -/
theorem getSongRatings_nonneg (s : DBState) (key : String) (h : countsNonneg s) :
    0 ≤ (getSongRatings s key).thumbs_up ∧ 0 ≤ (getSongRatings s key).thumbs_down := by
  unfold getSongRatings
  cases hrow : selectSongRating s key with
  | none => exact ⟨le_refl 0, le_refl 0⟩
  | some r =>
      have hrow2 := hrow
      unfold selectSongRating at hrow2
      have hmem := List.mem_of_find?_eq_some hrow2
      exact ⟨(h r hmem).1, (h r hmem).2⟩

/-- A committed vote never lowers any song's counts. -/
theorem getSongRatings_postState_mono (s : DBState) (k a t rt u key : String) :
    (getSongRatings s key).thumbs_up ≤ (getSongRatings (postState s k a t rt u) key).thumbs_up ∧
    (getSongRatings s key).thumbs_down ≤ (getSongRatings (postState s k a t rt u) key).thumbs_down := by
  by_cases hk : key = k
  · subst hk
    rw [getSongRatings_postState_self]
    unfold incCounts
    by_cases hrt : (rt == "up") = true <;> simp [hrt]
  · rw [getSongRatings_postState_other s k a t rt u key hk]
    exact ⟨le_refl _, le_refl _⟩

/-- Every state the Rating Store can reach has non-negative counts. -/
theorem reachable_countsNonneg (s : DBState) (hs : Reachable s) : countsNonneg s := by
  induction hs with
  | init =>
      intro r hr
      cases hr
  | vote f s k a t rt u hs ih =>
      rcases addOrUpdateRatingF_trichotomy f s k a t rt u with ⟨msg, heq⟩ | heq | ⟨hfresh, heq⟩
      · rw [heq]; exact ih
      · rw [heq]; exact ih
      · rw [heq]; exact countsNonneg_postState s k a t rt u ih

/-- Running one `up` vote per user over a list of users not yet voted on
`k`, with no repeated user: every call succeeds, `thumbs_up` grows by the
number of users, `thumbs_down` stays put. -/
theorem castVotesUp_spec (k a t : String) (users : List String) :
    ∀ s : DBState, users.Nodup → (∀ u2 ∈ users, selectUserRating s k u2 = none) →
      (castVotesUp k a t users s).1 = true ∧
      (getSongRatings (castVotesUp k a t users s).2 k).thumbs_up =
        (getSongRatings s k).thumbs_up + users.length ∧
      (getSongRatings (castVotesUp k a t users s).2 k).thumbs_down =
        (getSongRatings s k).thumbs_down := by
  induction users with
  | nil =>
      intro s _ _
      exact ⟨rfl, by simp [castVotesUp], rfl⟩
  | cons u rest ih =>
      intro s hnd hfresh
      have hu : selectUserRating s k u = none := hfresh u (List.mem_cons_self u rest)
      have hstep := addOrUpdateRating_fresh s k a t "up" u hu
      have hpost_fresh : ∀ u2 ∈ rest, selectUserRating (postState s k a t "up" u) k u2 = none := by
        intro u2 hu2
        have hne : u2 ≠ u := by
          intro hcontra
          subst hcontra
          exact (List.nodup_cons.mp hnd).1 hu2
        rw [selectUserRating_postState_ne s k a t "up" u u2 hne]
        exact hfresh u2 (List.mem_cons_of_mem u hu2)
      have hrec := ih (postState s k a t "up" u) (List.nodup_cons.mp hnd).2 hpost_fresh
      have hcast : castVotesUp k a t (u :: rest) s =
          ((castVotesUp k a t rest (postState s k a t "up" u)).1,
           (castVotesUp k a t rest (postState s k a t "up" u)).2) := by
        conv_lhs => unfold castVotesUp
        rw [hstep]
        simp [AddRatingResult.isOk]
      rw [hcast]
      refine ⟨hrec.1, ?_, ?_⟩
      · rw [hrec.2.1, getSongRatings_postState_self]
        simp only [incCounts]
        norm_num
        omega
      · rw [hrec.2.2, getSongRatings_postState_self]
        simp [incCounts]

/-! ### Claims -/

/-- C1: for every store state with no UserVote for `(k, u)` and ratingType
`up` or `down`, `castVote` succeeds: it leaves an aggregate row for `k` in
place — created as the zero-count row with the given artist `a` and title
`t` when `k` had no row, then incremented — increments exactly the chosen
count by 1 leaving the other unchanged, records the UserVote `(k, u, rt)`,
and returns the post-increment counts. -/
theorem claim_C1_castVote_fresh (s : DBState) (k a t rt u : String)
    (hfresh : selectUserRating s k u = none) (hrt : rt = "up" ∨ rt = "down") :
    (addOrUpdateRating s k a t rt u).1 =
      .ok (getSongRatings (addOrUpdateRating s k a t rt u).2 k) ∧
    (selectSongRating (addOrUpdateRating s k a t rt u).2 k).isSome = true ∧
    (selectSongRating s k = none →
      selectSongRating (addOrUpdateRating s k a t rt u).2 k =
        some (applyIncrement rt ⟨k, a, t, 0, 0⟩)) ∧
    (rt = "up" →
      (getSongRatings (addOrUpdateRating s k a t rt u).2 k).thumbs_up =
        (getSongRatings s k).thumbs_up + 1 ∧
      (getSongRatings (addOrUpdateRating s k a t rt u).2 k).thumbs_down =
        (getSongRatings s k).thumbs_down) ∧
    (rt = "down" →
      (getSongRatings (addOrUpdateRating s k a t rt u).2 k).thumbs_down =
        (getSongRatings s k).thumbs_down + 1 ∧
      (getSongRatings (addOrUpdateRating s k a t rt u).2 k).thumbs_up =
        (getSongRatings s k).thumbs_up) ∧
    selectUserRating (addOrUpdateRating s k a t rt u).2 k u = some ⟨k, u, rt⟩ := by
  have hstep := addOrUpdateRating_fresh s k a t rt u hfresh
  rw [hstep]
  refine ⟨rfl, ?_, ?_, ?_, ?_, selectUserRating_postState_self s k a t rt u hfresh⟩
  · rw [selectSongRating_postState_self]
    rfl
  · intro hnone
    rw [selectSongRating_postState_self, hnone]
    rfl
  · intro h
    subst h
    rw [getSongRatings_postState_self]
    simp [incCounts]
  · intro h
    subst h
    rw [getSongRatings_postState_self]
    simp [incCounts]

/-- C1 witness: a first `up` vote on the fresh store creates the row with
the given artist and title and zero counts, incremented. -/
theorem claim_C1_witness :
    selectUserRating DBState.empty "k" "u" = none ∧
    (addOrUpdateRating DBState.empty "k" "a" "t" "up" "u").1 =
      .ok (getSongRatings (addOrUpdateRating DBState.empty "k" "a" "t" "up" "u").2 "k") ∧
    selectSongRating (addOrUpdateRating DBState.empty "k" "a" "t" "up" "u").2 "k" =
      some ⟨"k", "a", "t", 1, 0⟩ ∧
    selectUserRating (addOrUpdateRating DBState.empty "k" "a" "t" "up" "u").2 "k" "u" =
      some ⟨"k", "u", "up"⟩ :=
  ⟨rfl,
   (claim_C1_castVote_fresh DBState.empty "k" "a" "t" "up" "u" rfl (Or.inl rfl)).1,
   (claim_C1_castVote_fresh DBState.empty "k" "a" "t" "up" "u" rfl (Or.inl rfl)).2.2.1 rfl,
   (claim_C1_castVote_fresh DBState.empty "k" "a" "t" "up" "u" rfl (Or.inl rfl)).2.2.2.2.2⟩

/-- C2: if a UserVote for `(k, u)` already exists, `castVote` (with any
ratingType) returns the duplicate-vote error and mutates nothing, so the
counts for `k` are unchanged. -/
theorem claim_C2_duplicate_rejected (s : DBState) (k a t rt u : String) (v : UserVote)
    (hdup : selectUserRating s k u = some v) :
    addOrUpdateRating s k a t rt u = (.errorDup, s) ∧
    getSongRatings (addOrUpdateRating s k a t rt u).2 k = getSongRatings s k := by
  have heq : addOrUpdateRating s k a t rt u = (.errorDup, s) := by
    unfold addOrUpdateRating addOrUpdateRatingF
    rw [show noFail.failCheck = none from rfl, hdup]
  exact ⟨heq, by rw [heq]⟩

/-- C2 witness: voting again after one recorded vote. -/
theorem claim_C2_witness :
    selectUserRating (⟨[], [⟨"k", "u", "up"⟩]⟩ : DBState) "k" "u" = some ⟨"k", "u", "up"⟩ ∧
    addOrUpdateRating (⟨[], [⟨"k", "u", "up"⟩]⟩ : DBState) "k" "a" "t" "down" "u" =
      (.errorDup, (⟨[], [⟨"k", "u", "up"⟩]⟩ : DBState)) :=
  ⟨by decide,
   (claim_C2_duplicate_rejected (⟨[], [⟨"k", "u", "up"⟩]⟩ : DBState) "k" "a" "t" "down" "u"
     ⟨"k", "u", "up"⟩ (by decide)).1⟩

/-- C3: under every failure pattern of the storage statements, a `castVote`
call either throws with the state exactly as before, is rejected as a
duplicate with the state exactly as before, or commits the full unit —
the one new vote row together with the one incremented count.  There is no
outcome with a count change but no vote row or vice versa. -/
theorem claim_C3_atomicity (f : FailureOracle) (s : DBState) (k a t rt u : String) :
    (∃ msg, (addOrUpdateRatingF f s k a t rt u).1 = .thrown msg ∧
      (addOrUpdateRatingF f s k a t rt u).2 = s) ∨
    ((addOrUpdateRatingF f s k a t rt u).1 = .errorDup ∧
      (addOrUpdateRatingF f s k a t rt u).2 = s) ∨
    (∃ c, (addOrUpdateRatingF f s k a t rt u).1 = .ok c ∧
      (addOrUpdateRatingF f s k a t rt u).2.user_ratings = s.user_ratings ++ [⟨k, u, rt⟩] ∧
      getSongRatings (addOrUpdateRatingF f s k a t rt u).2 k =
        incCounts rt (getSongRatings s k)) := by
  rcases addOrUpdateRatingF_trichotomy f s k a t rt u with ⟨msg, heq⟩ | heq | ⟨hfresh, heq⟩
  · exact .inl ⟨msg, by rw [heq], by rw [heq]⟩
  · exact .inr (.inl ⟨by rw [heq], by rw [heq]⟩)
  · refine .inr (.inr ⟨getSongRatings (postState s k a t rt u) k, by rw [heq], ?_, ?_⟩)
    · rw [heq]
      exact postState_user_ratings s k a t rt u
    · rw [heq]
      exact getSongRatings_postState_self s k a t rt u

/-- C4: a Submit-vote request missing any of the five fields, or whose
ratingType is neither `up` nor `down`, gets a 400 response with one of the
two validation messages, the Rating Store is never called, and no stored
row changes. -/
theorem claim_C4_validation (f : FailureOracle) (s : DBState) (req : VoteRequest)
    (h : missingAny req = true ∨
      (req.ratingType.getD "" ≠ "up" ∧ req.ratingType.getD "" ≠ "down")) :
    (postApiRatings f s req).1.status = 400 ∧
    (postApiRatings f s req).1.storeCalled = false ∧
    (postApiRatings f s req).2 = s ∧
    ((postApiRatings f s req).1.errorMsg = some "Missing required fields" ∨
     (postApiRatings f s req).1.errorMsg = some "Invalid rating type") := by
  by_cases hm : missingAny req = true
  · unfold postApiRatings
    rw [if_pos hm]
    exact ⟨rfl, rfl, rfl, .inl rfl⟩
  · have hrt : req.ratingType.getD "" ≠ "up" ∧ req.ratingType.getD "" ≠ "down" := by
      rcases h with h | h
      · exact absurd h hm
      · exact h
    have hcond : (req.ratingType.getD "" != "up" && req.ratingType.getD "" != "down") = true := by
      simp [bne_iff_ne]
      exact ⟨hrt.1, hrt.2⟩
    unfold postApiRatings
    rw [if_neg hm, if_pos hcond]
    exact ⟨rfl, rfl, rfl, .inr rfl⟩

/-- C4 witness: a request with no `title` field, and one with ratingType
`sideways`. -/
theorem claim_C4_witness :
    (postApiRatings noFail DBState.empty ⟨some "k", some "a", none, some "up", some "u"⟩).1.status
      = 400 ∧
    (postApiRatings noFail DBState.empty
      ⟨some "k", some "a", none, some "up", some "u"⟩).1.storeCalled = false ∧
    (postApiRatings noFail DBState.empty
      ⟨some "k", some "a", some "t", some "sideways", some "u"⟩).1.status = 400 ∧
    (postApiRatings noFail DBState.empty
      ⟨some "k", some "a", some "t", some "sideways", some "u"⟩).2 = DBState.empty :=
  ⟨(claim_C4_validation noFail DBState.empty ⟨some "k", some "a", none, some "up", some "u"⟩
      (Or.inl (by decide))).1,
   (claim_C4_validation noFail DBState.empty ⟨some "k", some "a", none, some "up", some "u"⟩
      (Or.inl (by decide))).2.1,
   (claim_C4_validation noFail DBState.empty ⟨some "k", some "a", some "t", some "sideways", some "u"⟩
      (Or.inr (by decide))).1,
   (claim_C4_validation noFail DBState.empty ⟨some "k", some "a", some "t", some "sideways", some "u"⟩
      (Or.inr (by decide))).2.2.1⟩

/-- C5: `getAggregate` returns `{0, 0}` when no aggregate row exists for
the key (never an error), and the row's current counts when one does. -/
theorem claim_C5_getAggregate (s : DBState) (k : String) :
    (selectSongRating s k = none → getSongRatings s k = ⟨0, 0⟩) ∧
    (∀ r : SongRating, selectSongRating s k = some r →
      getSongRatings s k = ⟨r.thumbs_up, r.thumbs_down⟩) := by
  constructor
  · intro h
    unfold getSongRatings
    rw [h]
  · intro r h
    unfold getSongRatings
    rw [h]

/-- C5 witness: the empty store and a store holding a `(2, 5)` row. -/
theorem claim_C5_witness :
    getSongRatings DBState.empty "k" = ⟨0, 0⟩ ∧
    getSongRatings (⟨[⟨"k", "a", "t", 2, 5⟩], []⟩ : DBState) "k" = ⟨2, 5⟩ :=
  ⟨(claim_C5_getAggregate DBState.empty "k").1 rfl,
   (claim_C5_getAggregate (⟨[⟨"k", "a", "t", 2, 5⟩], []⟩ : DBState) "k").2
     ⟨"k", "a", "t", 2, 5⟩ (by decide)⟩

/-- C6: starting from a state with no aggregate row and no votes for the
song, N distinct users each voting `up` all succeed and leave
`thumbs_up = N`, `thumbs_down = 0`. -/
theorem claim_C6_distinct_up_votes (s : DBState) (k a t : String) (users : List String)
    (hnd : users.Nodup)
    (hnovote : ∀ u2 : String, selectUserRating s k u2 = none)
    (hnorow : selectSongRating s k = none) :
    (castVotesUp k a t users s).1 = true ∧
    (getSongRatings (castVotesUp k a t users s).2 k).thumbs_up = users.length ∧
    (getSongRatings (castVotesUp k a t users s).2 k).thumbs_down = 0 := by
  have h := castVotesUp_spec k a t users s hnd (fun u2 _ => hnovote u2)
  have h0 : getSongRatings s k = ⟨0, 0⟩ := by
    unfold getSongRatings
    rw [hnorow]
  refine ⟨h.1, ?_, ?_⟩
  · rw [h.2.1, h0]
    simp
  · rw [h.2.2, h0]

/-- C6 witness: three distinct users on the fresh store. -/
theorem claim_C6_witness :
    (castVotesUp "k" "a" "t" ["u1", "u2", "u3"] DBState.empty).1 = true ∧
    (getSongRatings (castVotesUp "k" "a" "t" ["u1", "u2", "u3"] DBState.empty).2 "k").thumbs_up
      = 3 ∧
    (getSongRatings (castVotesUp "k" "a" "t" ["u1", "u2", "u3"] DBState.empty).2 "k").thumbs_down
      = 0 := by
  have h := claim_C6_distinct_up_votes DBState.empty "k" "a" "t" ["u1", "u2", "u3"]
    (by decide) (fun u2 => rfl) rfl
  simpa using h

/-- C7: `getUserVote` is absent whenever the user has no recorded vote on
the song, and right after a successful `castVote` it returns exactly the
recorded ratingType. -/
theorem claim_C7_getUserVote (s : DBState) (k a t rt u : String) :
    (selectUserRating s k u = none → getUserRating s k u = none) ∧
    ((addOrUpdateRating s k a t rt u).1.isOk = true →
      getUserRating (addOrUpdateRating s k a t rt u).2 k u = some rt) := by
  constructor
  · intro h
    unfold getUserRating
    rw [h]
    rfl
  · intro hok
    cases hfresh : selectUserRating s k u with
    | some v =>
        exfalso
        have heq : addOrUpdateRating s k a t rt u = (.errorDup, s) := by
          unfold addOrUpdateRating addOrUpdateRatingF
          rw [show noFail.failCheck = none from rfl, hfresh]
        rw [heq] at hok
        simp [AddRatingResult.isOk] at hok
    | none =>
        have hstep := addOrUpdateRating_fresh s k a t rt u hfresh
        rw [hstep]
        unfold getUserRating
        rw [selectUserRating_postState_self s k a t rt u hfresh]
        rfl

/-- C7 witness: before and after a first `up` vote on the fresh store. -/
theorem claim_C7_witness :
    getUserRating DBState.empty "k" "u" = none ∧
    getUserRating (addOrUpdateRating DBState.empty "k" "a" "t" "up" "u").2 "k" "u" =
      some "up" :=
  ⟨(claim_C7_getUserVote DBState.empty "k" "a" "t" "up" "u").1 rfl,
   (claim_C7_getUserVote DBState.empty "k" "a" "t" "up" "u").2 (by decide)⟩

/-- C8: on every reachable store state, all aggregate counts are
non-negative, and a `castVote` call (under any failure pattern) never
lowers any song's `thumbs_up` or `thumbs_down`; the read operations take
no state and mutate nothing by construction. -/
theorem claim_C8_counts_invariant (s : DBState) (hs : Reachable s)
    (f : FailureOracle) (k a t rt u : String) :
    countsNonneg s ∧
    countsNonneg (addOrUpdateRatingF f s k a t rt u).2 ∧
    ∀ key : String,
      (getSongRatings s key).thumbs_up ≤
          (getSongRatings (addOrUpdateRatingF f s k a t rt u).2 key).thumbs_up ∧
      (getSongRatings s key).thumbs_down ≤
          (getSongRatings (addOrUpdateRatingF f s k a t rt u).2 key).thumbs_down ∧
      0 ≤ (getSongRatings s key).thumbs_up ∧
      0 ≤ (getSongRatings s key).thumbs_down := by
  have hnn := reachable_countsNonneg s hs
  refine ⟨hnn, ?_, ?_⟩
  · exact reachable_countsNonneg _ (Reachable.vote f s k a t rt u hs)
  · intro key
    have hbase := getSongRatings_nonneg s key hnn
    rcases addOrUpdateRatingF_trichotomy f s k a t rt u with ⟨msg, heq⟩ | heq | ⟨hfresh, heq⟩
    · rw [heq]
      exact ⟨le_refl _, le_refl _, hbase.1, hbase.2⟩
    · rw [heq]
      exact ⟨le_refl _, le_refl _, hbase.1, hbase.2⟩
    · rw [heq]
      have hmono := getSongRatings_postState_mono s k a t rt u key
      exact ⟨hmono.1, hmono.2, hbase.1, hbase.2⟩

/-- C8 witness: the fresh store and one `up` vote on it. -/
theorem claim_C8_witness :
    countsNonneg (addOrUpdateRatingF noFail DBState.empty "k" "a" "t" "up" "u").2 ∧
    (getSongRatings DBState.empty "k").thumbs_up ≤
      (getSongRatings (addOrUpdateRatingF noFail DBState.empty "k" "a" "t" "up" "u").2
        "k").thumbs_up :=
  ⟨(claim_C8_counts_invariant DBState.empty Reachable.init noFail "k" "a" "t" "up" "u").2.1,
   ((claim_C8_counts_invariant DBState.empty Reachable.init noFail "k" "a" "t" "up" "u").2.2
     "k").1⟩

/-- C10: the store itself never rejects a ratingType outside `{up, down}`:
any string other than `up` passing the duplicate check succeeds, increments
`thumbs_down` by 1 leaving `thumbs_up` unchanged, and records the raw
string in the vote row. -/
theorem claim_C10_raw_ratingType (s : DBState) (k a t rt u : String)
    (hfresh : selectUserRating s k u = none) (hneq : rt ≠ "up") :
    (addOrUpdateRating s k a t rt u).1.isOk = true ∧
    (getSongRatings (addOrUpdateRating s k a t rt u).2 k).thumbs_down =
      (getSongRatings s k).thumbs_down + 1 ∧
    (getSongRatings (addOrUpdateRating s k a t rt u).2 k).thumbs_up =
      (getSongRatings s k).thumbs_up ∧
    selectUserRating (addOrUpdateRating s k a t rt u).2 k u = some ⟨k, u, rt⟩ := by
  have hstep := addOrUpdateRating_fresh s k a t rt u hfresh
  rw [hstep]
  refine ⟨rfl, ?_, ?_, selectUserRating_postState_self s k a t rt u hfresh⟩
  · rw [getSongRatings_postState_self]
    simp [incCounts, hneq]
  · rw [getSongRatings_postState_self]
    simp [incCounts, hneq]

/-- C10 witness: a `sideways` vote on the fresh store is accepted and
lands in `thumbs_down`. -/
theorem claim_C10_witness :
    (addOrUpdateRating DBState.empty "k" "a" "t" "sideways" "u").1.isOk = true ∧
    (getSongRatings (addOrUpdateRating DBState.empty "k" "a" "t" "sideways" "u").2
      "k").thumbs_down = 1 ∧
    selectUserRating (addOrUpdateRating DBState.empty "k" "a" "t" "sideways" "u").2 "k" "u" =
      some ⟨"k", "u", "sideways"⟩ := by
  have h := claim_C10_raw_ratingType DBState.empty "k" "a" "t" "sideways" "u" rfl (by decide)
  exact ⟨h.1, by rw [h.2.1]; rfl, h.2.2.2⟩
